import Mathlib

/-!
Verification of `tbp.monty` motor-system state canonicalization and simulator contract

Shallow embedding of:
* `src/tbp/monty/frameworks/models/motor_system_state.py` — `SensorState`,
  `AgentState`, `ProprioceptiveState`/`MotorSystemState` and
  `MotorSystemState.convert_motor_state`;
* `src/tbp/monty/simulators/simulator.py` — the `Simulator` Protocol
  (declaration-only in the source; behaviour modelled from the spec).

Python floats are modelled as rationals (`ℚ`): every claim here is about the
structure and order of the produced values, not about rounding.  A Python dict
is modelled as its ordered association list of key/value pairs (Python dicts
iterate in insertion order and have unique keys by construction).
-/

namespace Monty

/-- Agent identifiers (`AgentID` in the source is a string-like identifier). -/
abbrev AgentID := String

/-- Sensor identifiers (`SensorID` in the source). -/
abbrev SensorID := String

/-- Dynamic values that can sit in the `position : Any` / `rotation : Any`
fields of the source dataclasses.  `vec3` models `magnum.Vector3` (iterable,
yielding its 3 components; no `real`/`imag` attributes); `quat` models
`quaternion.quaternion` (attributes `real : float` and `imag`, a length-3
numeric sequence; not iterable); `num` models a Python `float` (which has
`real` and `imag` attributes but is not iterable); `arr` models a plain Python
list of floats (iterable; no `real` attribute); `pyNone` models `None`. -/
inductive PyObj where
  | num (q : ℚ)
  | vec3 (x y z : ℚ)
  | quat (r i j k : ℚ)
  | arr (xs : List ℚ)
  | pyNone
deriving DecidableEq, Repr

/-- The Python exceptions that the conversion routine can raise. -/
inductive PyError where
  | typeError
  | attributeError
deriving DecidableEq, Repr

/-- Python `list(x)` on a dynamic value: iterables (`magnum.Vector3`, Python lists)
yield their numeric components in order; floats, quaternions and `None` are
not iterable and raise `TypeError`. -/
def pyIter : PyObj → Except PyError (List ℚ)
  | .vec3 x y z => .ok [x, y, z]
  | .arr xs => .ok xs
  | _ => .error .typeError

/-- Attribute access `x.real`: defined for floats (itself) and quaternions (scalar part);
`AttributeError` otherwise. -/
def pyReal : PyObj → Except PyError ℚ
  | .num q => .ok q
  | .quat r _ _ _ => .ok r
  | _ => .error .attributeError

/-- Attribute access `x.imag`: defined for floats (`0.0`) and quaternions (the length-3
imaginary vector); `AttributeError` otherwise. -/
def pyImag : PyObj → Except PyError PyObj
  | .num _ => .ok (.num 0)
  | .quat _ i j k => .ok (.arr [i, j, k])
  | _ => .error .attributeError

/-- The `SensorState` dataclass: `position : Any`, `rotation : Any`. -/
structure SensorState where
  position : PyObj
  rotation : PyObj
deriving DecidableEq, Repr

/-- The `AgentState` dataclass: `sensors : Dict[SensorID, SensorState]`,
`position : Any`, `rotation : Any`, `motor_only_step : bool = False`. -/
structure AgentState where
  sensors : List (SensorID × SensorState)
  position : PyObj
  rotation : PyObj
  motor_only_step : Bool := false
deriving DecidableEq, Repr

/-- The `MotorSystemState` dict (and the structurally identical
`ProprioceptiveState`): a dict from `AgentID` to `AgentState`, modelled as its
ordered association list. -/
abbrev MotorSystemState := List (AgentID × AgentState)

/-- An entry of the inner `sensors` dict produced by `convert_motor_state`:
`{"position": np.array(list(...)), "rotation": [real] + list(imag)}`.
`np.array` over a 1-D numeric list preserves the component sequence, so both
fields are plain numeric sequences. -/
structure SensorEntry where
  position : List ℚ
  rotation : List ℚ
deriving DecidableEq, Repr

/-- An entry of the outer dict produced by `convert_motor_state`: the record
`{"position": ..., "rotation": ..., "sensors": ...}` built for one agent. -/
structure AgentEntry where
  position : List ℚ
  rotation : List ℚ
  sensors : List (SensorID × SensorEntry)
deriving DecidableEq, Repr

/-- The expression `[rotation.real] + list(rotation.imag)` — evaluated in Python's order:
`.real` first, then `.imag`, then `list(...)`. -/
def rotationWXYZ (rot : PyObj) : Except PyError (List ℚ) :=
  match pyReal rot with
  | .error e => .error e
  | .ok re =>
    match pyImag rot with
    | .error e => .error e
    | .ok im =>
      match pyIter im with
      | .error e => .error e
      | .ok ims => .ok (re :: ims)

/-- The body of the inner loop of `convert_motor_state` for one sensor:
`{"position": np.array(list(sensor_state.position)),
  "rotation": [sensor_state.rotation.real] + list(sensor_state.rotation.imag)}`
(the dict literal evaluates `"position"` before `"rotation"`). -/
def convertSensor (ss : SensorState) : Except PyError SensorEntry :=
  match pyIter ss.position with
  | .error e => .error e
  | .ok p =>
    match rotationWXYZ ss.rotation with
    | .error e => .error e
    | .ok r => .ok ⟨p, r⟩

/-- The inner `for sensor_id in agent_state.sensors.keys()` loop: builds the
`sensors` dict in iteration order, propagating the first raised exception. -/
def convertSensors : List (SensorID × SensorState) →
    Except PyError (List (SensorID × SensorEntry))
  | [] => .ok []
  | (sid, ss) :: rest =>
    match convertSensor ss with
    | .error e => .error e
    | .ok entry =>
      match convertSensors rest with
      | .error e => .error e
      | .ok tail => .ok ((sid, entry) :: tail)

/-- One iteration of the outer loop of `convert_motor_state`: the inner sensor
loop runs first, then the agent's own `"position"` and `"rotation"` fields are
evaluated (in that order) to form
`{"position": ..., "rotation": ..., "sensors": sensors}`. -/
def convertAgent (a : AgentState) : Except PyError AgentEntry :=
  match convertSensors a.sensors with
  | .error e => .error e
  | .ok sensors =>
    match pyIter a.position with
    | .error e => .error e
    | .ok p =>
      match rotationWXYZ a.rotation with
      | .error e => .error e
      | .ok r => .ok ⟨p, r, sensors⟩

/-- The method `MotorSystemState.convert_motor_state`: iterates `self.keys()` in order,
building `state_copy`; a raised exception aborts the whole call.  (For a dict,
iterating its keys and indexing each equals iterating its items in order; the
state-threading variant `convertRun` below performs the explicit
key-then-lookup sequence and is proved to agree on duplicate-free states.) -/
def convert_motor_state : MotorSystemState → Except PyError (List (AgentID × AgentEntry))
  | [] => .ok []
  | (aid, a) :: rest =>
    match convertAgent a with
    | .error e => .error e
    | .ok entry =>
      match convert_motor_state rest with
      | .error e => .error e
      | .ok tail => .ok ((aid, entry) :: tail)

/-- Subscript `self[agent_id]`: dict lookup (first matching key). -/
def dictGet (k : AgentID) : MotorSystemState → Option AgentState
  | [] => none
  | (k', v) :: rest => if k = k' then some v else dictGet k rest

/-- The outer loop of `convert_motor_state` written exactly as the source runs
it — iterate `self.keys()`, look each key up in `self`, append to
`state_copy` — threading the `self` mapping through every iteration so that
mutation (there is none: no statement assigns to `self` or its entries) would
be visible in the returned state. -/
def convertLoop (self : MotorSystemState) :
    List AgentID → List (AgentID × AgentEntry) →
    MotorSystemState × Except PyError (List (AgentID × AgentEntry))
  | [], acc => (self, .ok acc)
  | k :: rest, acc =>
    match dictGet k self with
    | none => (self, .error .typeError)
    | some a =>
      match convertAgent a with
      | .error e => (self, .error e)
      | .ok entry => convertLoop self rest (acc ++ [(k, entry)])

/-- Variant of `convert_motor_state` with the post-call `self` made explicit: returns the
state of the input mapping after the call together with the call's result. -/
def convertRun (self : MotorSystemState) :
    MotorSystemState × Except PyError (List (AgentID × AgentEntry)) :=
  convertLoop self (self.map Prod.fst) []

/-! ## Well-formedness and the spec-side expected output -/

/-- Is this value a 3-component vector (`magnum.Vector3`)? -/
def isVec3 : PyObj → Bool
  | .vec3 _ _ _ => true
  | _ => false

/-- Is this value a quaternion (scalar part plus 3-vector imaginary part)? -/
def isQuat : PyObj → Bool
  | .quat _ _ _ _ => true
  | _ => false

/-- A sensor state whose position is a 3-component vector and whose rotation
is a quaternion. -/
def wfSensor (ss : SensorState) : Bool :=
  isVec3 ss.position && isQuat ss.rotation

/-- An agent state whose own pose and all of whose sensors' poses are
vector/quaternion valued. -/
def wfAgent (a : AgentState) : Bool :=
  isVec3 a.position && isQuat a.rotation && a.sensors.all (fun p => wfSensor p.2)

/-- A motor-system state in which every agent and sensor pose is
vector/quaternion valued — the input contract of the canonicalization. -/
def wfState (s : MotorSystemState) : Bool :=
  s.all (fun p => wfAgent p.2)

/-- Does this value support iteration at all (`list(x)` succeeds)? -/
def pyIterable : PyObj → Bool
  | .vec3 _ _ _ => true
  | .arr _ => true
  | _ => false

/-- The inputs `convert_motor_state` actually accepts without raising: the
position merely has to be iterable (no component count is checked) and the
rotation has to be a quaternion. -/
def looseSensor (ss : SensorState) : Bool :=
  pyIterable ss.position && isQuat ss.rotation

/-- Loose acceptance for one agent: its own pose and each sensor's pose. -/
def looseAgent (a : AgentState) : Bool :=
  pyIterable a.position && isQuat a.rotation && a.sensors.all (fun p => looseSensor p.2)

/-- Loose acceptance for a whole state. -/
def looseState (s : MotorSystemState) : Bool :=
  s.all (fun p => looseAgent p.2)

/-- The components of a vector, per the spec: `(x, y, z)` in order. -/
def vecParts : PyObj → List ℚ
  | .vec3 x y z => [x, y, z]
  | .arr xs => xs
  | _ => []

/-- The WXYZ sequence of a quaternion, per the spec: scalar part first, then
the three imaginary components in order. -/
def quatWXYZ : PyObj → List ℚ
  | .quat r i j k => [r, i, j, k]
  | _ => []

/-- The record the spec promises for one sensor. -/
def expectedSensor (ss : SensorState) : SensorEntry :=
  ⟨vecParts ss.position, quatWXYZ ss.rotation⟩

/-- The record the spec promises for one agent. -/
def expectedAgent (a : AgentState) : AgentEntry :=
  ⟨vecParts a.position, quatWXYZ a.rotation,
    a.sensors.map (fun p => (p.1, expectedSensor p.2))⟩

/-- The mapping the spec promises for a whole motor-system state. -/
def expectedOutput (s : MotorSystemState) : List (AgentID × AgentEntry) :=
  s.map (fun p => (p.1, expectedAgent p.2))

/-! ## JSON model for round-trip safety -/

/-- A JSON value, as far as the canonicalized output needs: numbers, arrays
and (ordered) objects. -/
inductive Json where
  | num (q : ℚ)
  | arr (xs : List Json)
  | obj (fields : List (String × Json))

/-- Serialize a numeric sequence. -/
def jsonOfQList (xs : List ℚ) : Json := .arr (xs.map Json.num)

/-- Serialize one sensor record. -/
def jsonOfSensorEntry (e : SensorEntry) : Json :=
  .obj [("position", jsonOfQList e.position), ("rotation", jsonOfQList e.rotation)]

/-- Serialize one agent record. -/
def jsonOfAgentEntry (e : AgentEntry) : Json :=
  .obj [("position", jsonOfQList e.position), ("rotation", jsonOfQList e.rotation),
        ("sensors", .obj (e.sensors.map (fun p => (p.1, jsonOfSensorEntry p.2))))]

/-- Serialize the whole canonicalized output. -/
def jsonOfOutput (o : List (AgentID × AgentEntry)) : Json :=
  .obj (o.map (fun p => (p.1, jsonOfAgentEntry p.2)))

/-- Parse a number. -/
def qOfJson : Json → Option ℚ
  | .num q => some q
  | _ => none

/-- Parse the elements of a JSON array as numbers. -/
def qListOfJsonAux : List Json → Option (List ℚ)
  | [] => some []
  | j :: rest =>
    match qOfJson j, qListOfJsonAux rest with
    | some q, some tl => some (q :: tl)
    | _, _ => none

/-- Parse a numeric sequence. -/
def qListOfJson : Json → Option (List ℚ)
  | .arr xs => qListOfJsonAux xs
  | _ => none

/-- Parse one sensor record. -/
def sensorEntryOfJson : Json → Option SensorEntry
  | .obj [("position", p), ("rotation", r)] =>
    match qListOfJson p, qListOfJson r with
    | some ps, some rs => some ⟨ps, rs⟩
    | _, _ => none
  | _ => none

/-- Parse a sensors object. -/
def sensorsOfJson : List (String × Json) → Option (List (SensorID × SensorEntry))
  | [] => some []
  | (sid, j) :: rest =>
    match sensorEntryOfJson j, sensorsOfJson rest with
    | some e, some tail => some ((sid, e) :: tail)
    | _, _ => none

/-- Parse one agent record. -/
def agentEntryOfJson : Json → Option AgentEntry
  | .obj [("position", p), ("rotation", r), ("sensors", .obj ss)] =>
    match qListOfJson p, qListOfJson r, sensorsOfJson ss with
    | some ps, some rs, some es => some ⟨ps, rs, es⟩
    | _, _, _ => none
  | _ => none

/-- Parse the whole canonicalized output. -/
def outputFieldsOfJson : List (String × Json) → Option (List (AgentID × AgentEntry))
  | [] => some []
  | (aid, j) :: rest =>
    match agentEntryOfJson j, outputFieldsOfJson rest with
    | some e, some tail => some ((aid, e) :: tail)
    | _, _ => none

/-- Parse the top-level JSON value back into a canonicalized output. -/
def outputOfJson : Json → Option (List (AgentID × AgentEntry))
  | .obj fields => outputFieldsOfJson fields
  | _ => none

/-! ## Simulator contract model

The `Simulator` Protocol in `simulators/simulator.py` declares its operations
with `...` bodies and documents their semantics; no backend implementation is
part of this repository.  The definitions below are therefore modelled from
the spec, as noted on each. -/

/-- Errors a backend surfaces to the caller. -/
inductive SimError where
  | simClosed
  | unknownObjectName
deriving DecidableEq, Repr

/-- Modelled from the spec: the backend has exactly two macro-states,
"uninitialized-or-reset" (`ready`) and `active`, plus the terminal state
entered by `close()`. -/
inductive SimPhase where
  | ready
  | active
  | closed
deriving DecidableEq, Repr

/-- Modelled from the spec: a backend's runtime state is its macro-state plus
its internal environment configuration, abstracted as a natural number whose
value `0` is the initial configuration.  Observations are a function of the
environment configuration alone. -/
structure SimState where
  phase : SimPhase
  env : ℕ
deriving DecidableEq, Repr

/-- A freshly constructed simulator: initial configuration, not yet active. -/
def freshSim : SimState := ⟨.ready, 0⟩

/-- Modelled from the spec: the sensor observations the backend reports in a
given environment configuration (`observations` query; backend-defined
per-modality structure, abstracted here). -/
def obsOf (env : ℕ) : ℕ := env

/-- The observation set of the initial configuration. -/
def initialObs : ℕ := obsOf 0

/-- Modelled from the spec: `apply_action(action)` executes the action (here:
a backend-agnostic command abstracted as a number deterministically updating
the environment configuration), moves the backend to the `active` macro-state
and returns the resulting observations; after `close()` no operation is
valid, so on a closed simulator it fails rather than returning stale
observations. -/
def applyActionSim (a : ℕ) (s : SimState) : Except SimError (SimState × ℕ) :=
  match s.phase with
  | .closed => .error .simClosed
  | _ =>
    let env' := s.env + a + 1
    .ok (⟨.active, env'⟩, obsOf env')

/-- Modelled from the spec: `reset()` returns the backend to its initial
configuration, whatever the prior history, and returns the initial
observations; it is the only uninitialize-and-reinitialize transition.  After
`close()` no operation is valid. -/
def resetSim (s : SimState) : Except SimError (SimState × ℕ) :=
  match s.phase with
  | .closed => .error .simClosed
  | _ => .ok (freshSim, initialObs)

/-- Modelled from the spec: `close()` releases backend resources and is the
terminal transition; it is idempotent. -/
def closeSim (s : SimState) : SimState := ⟨.closed, s.env⟩

/-- The operations a caller can issue between construction and the point of
interest. -/
inductive SimOp where
  | applyAct (a : ℕ)
  | resetOp
  | closeOp
deriving DecidableEq, Repr

/-- Run a sequence of operations from a state, keeping the state unchanged on
a failed operation (a raised error leaves the backend as it was). -/
def runOps : List SimOp → SimState → SimState
  | [], s => s
  | op :: rest, s =>
    runOps rest
      (match op with
        | .applyAct a =>
          match applyActionSim a s with
          | .ok (s', _) => s'
          | .error _ => s
        | .resetOp =>
          match resetSim s with
          | .ok (s', _) => s'
          | .error _ => s
        | .closeOp => closeSim s)

/-! ### `add_object` model -/

/-- A point of the simulated environment (positions of camera, objects). -/
abbrev Triple := ℚ × ℚ × ℚ

/-- Componentwise difference. -/
def tsub (a b : Triple) : Triple := (a.1 - b.1, a.2.1 - b.2.1, a.2.2 - b.2.2)

/-- Scalar multiple. -/
def tsmul (t : ℚ) (a : Triple) : Triple := (t * a.1, t * a.2.1, t * a.2.2)

/-- Componentwise sum. -/
def tadd (a b : Triple) : Triple := (a.1 + b.1, a.2.1 + b.2.1, a.2.2 + b.2.2)

/-- The candidate line-of-sight ratio: the scalar `t` with `w = t • v` when
one exists, read off the first nonzero coordinate of `v`. -/
def losRatio (v w : Triple) : ℚ :=
  if v.1 ≠ 0 then w.1 / v.1
  else if v.2.1 ≠ 0 then w.2.1 / v.2.1
  else w.2.2 / v.2.2

/-- Modelled from the spec: a point `p` occludes the initial camera view of a
target at `g` when `p` lies strictly between the camera `c` and the target on
the line of sight, i.e. `p - c = t • (g - c)` for some `0 < t < 1`. -/
def occludes (c g p : Triple) : Bool :=
  let v := tsub g c
  let w := tsub p c
  if v = ((0 : ℚ), (0 : ℚ), (0 : ℚ)) then false
  else if w = tsmul (losRatio v w) v ∧ 0 < losRatio v w ∧ losRatio v w < 1 then true
  else false

/-- Modelled from the spec: when the requested placement would occlude the
target's initial view, the backend places the object elsewhere; here on the
line of sight but beyond the target, at `g + (g - c)`. -/
def safePlacement (c g : Triple) : Triple := tadd g (tsub g c)

/-- Modelled from the spec: the environment a backend manages for
`add_object` — the preloaded object registry (keyed by name), the
instantiated objects with their positions, and the initial camera position. -/
structure Scene where
  registry : List String
  objects : List (ℕ × Triple)
  camera : Triple
deriving DecidableEq, Repr

/-- Position of an instantiated object, by identifier. -/
def objPos (tid : ℕ) : List (ℕ × Triple) → Option Triple
  | [] => none
  | (oid, p) :: rest => if tid = oid then some p else objPos tid rest

/-- Modelled from the spec: `add_object(name, position, ..., semantic_id, ...,
primary_target_object)` fails if `name` is not in the preloaded registry;
otherwise it instantiates the named object, placed so that (when
`primary_target_object` is given) it does not occlude the initial view of
that target, and returns the new object identifier together with the
resolved semantic identifier. -/
def addObjectSim (sc : Scene) (name : String) (pos : Triple)
    (semanticId : Option ℕ) (primaryTarget : Option ℕ) :
    Except SimError (Scene × ℕ × Option ℕ) :=
  if name ∈ sc.registry then
    let placed :=
      match primaryTarget with
      | none => pos
      | some tid =>
        match objPos tid sc.objects with
        | none => pos
        | some g => if occludes sc.camera g pos then safePlacement sc.camera g else pos
    let oid := sc.objects.length
    .ok ({ sc with objects := sc.objects ++ [(oid, placed)] }, oid, semanticId)
  else .error .unknownObjectName

/-! ## Concrete inputs used by the witnesses -/

/-- The agent pose of the spec's worked example: `position=(1.0, 2.0, 3.0)`,
`rotation=quaternion(real=0.0, imag=(0.0, 0.0, 1.0))`, one sensor at
`position=(0.0, 0.1, 0.0)` with identity rotation. -/
def exampleState : MotorSystemState :=
  [("agent_id_0",
    { sensors := [("sensor_id_0", ⟨.vec3 0 (1/10) 0, .quat 1 0 0 0⟩)],
      position := .vec3 1 2 3,
      rotation := .quat 0 0 0 1 })]

/-- The canonicalized output of `exampleState`, written out literally. -/
def exampleOutput : List (AgentID × AgentEntry) :=
  [("agent_id_0",
    ⟨[1, 2, 3], [0, 0, 0, 1],
     [("sensor_id_0", ⟨[0, 1/10, 0], [1, 0, 0, 0]⟩)]⟩)]

/-! ## Lemmas -/

theorem convertSensor_wf (ss : SensorState) (h : wfSensor ss = true) :
    convertSensor ss = .ok (expectedSensor ss) := by
  obtain ⟨p, r⟩ := ss
  simp only [wfSensor, Bool.and_eq_true] at h
  obtain ⟨hp, hr⟩ := h
  cases p <;> simp only [isVec3, Bool.false_eq_true] at hp
  cases r <;> simp only [isQuat, Bool.false_eq_true] at hr
  rfl

theorem convertSensors_wf (l : List (SensorID × SensorState))
    (h : l.all (fun p => wfSensor p.2) = true) :
    convertSensors l = .ok (l.map (fun p => (p.1, expectedSensor p.2))) := by
  induction l with
  | nil => rfl
  | cons hd tl ih =>
    obtain ⟨sid, ss⟩ := hd
    simp only [List.all_cons, Bool.and_eq_true] at h
    simp only [convertSensors]
    rw [convertSensor_wf ss h.1, ih h.2]
    rfl

theorem convertAgent_wf (a : AgentState) (h : wfAgent a = true) :
    convertAgent a = .ok (expectedAgent a) := by
  obtain ⟨sensors, p, r, flag⟩ := a
  simp only [wfAgent, Bool.and_eq_true] at h
  obtain ⟨⟨hp, hr⟩, hs⟩ := h
  simp only [convertAgent]
  rw [convertSensors_wf sensors hs]
  cases p <;> simp only [isVec3, Bool.false_eq_true] at hp
  cases r <;> simp only [isQuat, Bool.false_eq_true] at hr
  rfl

theorem rotationWXYZ_isOk (rot : PyObj) : (rotationWXYZ rot).isOk = isQuat rot := by
  cases rot <;> rfl

theorem convertSensor_isOk (ss : SensorState) :
    (convertSensor ss).isOk = looseSensor ss := by
  obtain ⟨p, r⟩ := ss
  cases p <;> cases r <;> rfl

theorem convertSensors_isOk (l : List (SensorID × SensorState)) :
    (convertSensors l).isOk = l.all (fun p => looseSensor p.2) := by
  induction l with
  | nil => rfl
  | cons hd tl ih =>
    obtain ⟨sid, ss⟩ := hd
    simp only [convertSensors, List.all_cons]
    cases hcs : convertSensor ss with
    | error e =>
      have h1 : looseSensor ss = false := by rw [← convertSensor_isOk, hcs]; rfl
      simp [h1, Except.isOk, Except.toBool]
    | ok entry =>
      have h1 : looseSensor ss = true := by rw [← convertSensor_isOk, hcs]; rfl
      cases hct : convertSensors tl with
      | error e =>
        rw [hct] at ih
        simp [h1, ← ih, Except.isOk, Except.toBool]
      | ok tail =>
        rw [hct] at ih
        simp [h1, ← ih, Except.isOk, Except.toBool]

theorem convertAgent_isOk (a : AgentState) :
    (convertAgent a).isOk = looseAgent a := by
  obtain ⟨sensors, p, r, flag⟩ := a
  simp only [convertAgent, looseAgent]
  cases hcs : convertSensors sensors with
  | error e =>
    have h1 : sensors.all (fun q => looseSensor q.2) = false := by
      rw [← convertSensors_isOk, hcs]; rfl
    simp [h1, Except.isOk, Except.toBool]
  | ok entries =>
    have h1 : sensors.all (fun q => looseSensor q.2) = true := by
      rw [← convertSensors_isOk, hcs]; rfl
    cases p <;> cases r <;>
      simp [h1, Except.isOk, Except.toBool, pyIter, rotationWXYZ, pyReal, pyImag,
        pyIterable, isQuat]

theorem convertSensors_shape (l : List (SensorID × SensorState))
    (m : List (SensorID × SensorEntry)) (h : convertSensors l = .ok m) :
    List.Forall₂ (fun ss se => se.1 = ss.1 ∧ convertSensor ss.2 = .ok se.2) l m := by
  induction l generalizing m with
  | nil =>
    simp only [convertSensors] at h
    injection h with h
    subst h
    exact List.Forall₂.nil
  | cons hd tl ih =>
    obtain ⟨sid, ss⟩ := hd
    simp only [convertSensors] at h
    cases hcs : convertSensor ss <;> rw [hcs] at h
    · exact absurd h (by simp)
    · cases hct : convertSensors tl <;> rw [hct] at h
      · exact absurd h (by simp)
      · injection h with h
        subst h
        exact List.Forall₂.cons ⟨rfl, hcs⟩ (ih _ hct)

theorem sensors_key_map (l : List (SensorID × SensorState))
    (m : List (SensorID × SensorEntry))
    (h : List.Forall₂ (fun ss se => se.1 = ss.1 ∧ convertSensor ss.2 = .ok se.2) l m) :
    m.map Prod.fst = l.map Prod.fst := by
  induction h with
  | nil => rfl
  | cons hd tl ih => simp only [List.map_cons, hd.1, ih]

theorem convertAgent_sensors (a : AgentState) (entry : AgentEntry)
    (h : convertAgent a = .ok entry) :
    convertSensors a.sensors = .ok entry.sensors := by
  simp only [convertAgent] at h
  cases hcs : convertSensors a.sensors <;> rw [hcs] at h
  · exact absurd h (by simp)
  · cases hp : pyIter a.position <;> rw [hp] at h
    · exact absurd h (by simp)
    · cases hr : rotationWXYZ a.rotation <;> rw [hr] at h
      · exact absurd h (by simp)
      · injection h with h
        subst h
        rfl

theorem convertLoop_self (self : MotorSystemState) (ks : List AgentID)
    (acc : List (AgentID × AgentEntry)) : (convertLoop self ks acc).1 = self := by
  induction ks generalizing acc with
  | nil => rfl
  | cons k rest ih =>
    simp only [convertLoop]
    cases dictGet k self with
    | none => rfl
    | some a =>
      dsimp only
      cases convertAgent a with
      | error e => rfl
      | ok entry => exact ih _

theorem dictGet_of_nodup (s : MotorSystemState) (k : AgentID) (a : AgentState)
    (hnd : (s.map Prod.fst).Nodup) (hmem : (k, a) ∈ s) : dictGet k s = some a := by
  induction s with
  | nil => cases hmem
  | cons hd tl ih =>
    obtain ⟨k0, a0⟩ := hd
    simp only [List.map_cons, List.nodup_cons] at hnd
    rcases List.mem_cons.mp hmem with heq | hmem2
    · injection heq with h1 h2
      subst h1; subst h2
      simp [dictGet]
    · have hk : k ≠ k0 := by
        intro hk
        subst hk
        exact hnd.1 (List.mem_map.mpr ⟨(k, a), hmem2, rfl⟩)
      simp only [dictGet, if_neg hk]
      exact ih hnd.2 hmem2

theorem convertLoop_eq (self : MotorSystemState) (pending : MotorSystemState)
    (acc : List (AgentID × AgentEntry))
    (hp : ∀ x ∈ pending, dictGet x.1 self = some x.2) :
    (convertLoop self (pending.map Prod.fst) acc).2 =
      match convert_motor_state pending with
      | .ok t => .ok (acc ++ t)
      | .error e => .error e := by
  induction pending generalizing acc with
  | nil => simp [convertLoop, convert_motor_state]
  | cons hd tl ih =>
    obtain ⟨k, a⟩ := hd
    have hk : dictGet k self = some a := hp (k, a) (List.mem_cons_self _ _)
    simp only [List.map_cons, convertLoop, convert_motor_state, hk]
    cases hca : convertAgent a with
    | error e => rfl
    | ok entry =>
      rw [ih _ (fun x hx => hp x (List.mem_cons_of_mem _ hx))]
      cases convert_motor_state tl with
      | error e => rfl
      | ok t => simp

theorem convertRun_eq_convert (s : MotorSystemState)
    (hnd : (s.map Prod.fst).Nodup) :
    (convertRun s).2 = convert_motor_state s := by
  have h := convertLoop_eq s s [] (fun x hx => dictGet_of_nodup s x.1 x.2 hnd hx)
  rw [convertRun, h]
  cases convert_motor_state s <;> simp

theorem qList_roundtrip (xs : List ℚ) : qListOfJson (jsonOfQList xs) = some xs := by
  simp only [jsonOfQList, qListOfJson]
  induction xs with
  | nil => rfl
  | cons x tl ih => simp only [List.map_cons, qListOfJsonAux, qOfJson, ih]

theorem sensorEntry_roundtrip (e : SensorEntry) :
    sensorEntryOfJson (jsonOfSensorEntry e) = some e := by
  obtain ⟨p, r⟩ := e
  simp only [jsonOfSensorEntry, sensorEntryOfJson, qList_roundtrip]

theorem sensors_roundtrip (l : List (SensorID × SensorEntry)) :
    sensorsOfJson (l.map (fun p => (p.1, jsonOfSensorEntry p.2))) = some l := by
  induction l with
  | nil => rfl
  | cons hd tl ih =>
    obtain ⟨sid, e⟩ := hd
    simp only [List.map_cons, sensorsOfJson, sensorEntry_roundtrip, ih]

theorem agentEntry_roundtrip (e : AgentEntry) :
    agentEntryOfJson (jsonOfAgentEntry e) = some e := by
  obtain ⟨p, r, sensors⟩ := e
  simp only [jsonOfAgentEntry, agentEntryOfJson, qList_roundtrip, sensors_roundtrip]

theorem output_roundtrip (o : List (AgentID × AgentEntry)) :
    outputOfJson (jsonOfOutput o) = some o := by
  simp only [jsonOfOutput, outputOfJson]
  induction o with
  | nil => rfl
  | cons hd tl ih =>
    obtain ⟨aid, e⟩ := hd
    simp only [List.map_cons, outputFieldsOfJson, agentEntry_roundtrip, ih]

theorem convertAgent_congr (a b : AgentState) (h1 : a.sensors = b.sensors)
    (h2 : a.position = b.position) (h3 : a.rotation = b.rotation) :
    convertAgent a = convertAgent b := by
  simp only [convertAgent, h1, h2, h3]

theorem losRatio_smul (v : Triple) (hv : v ≠ ((0 : ℚ), (0 : ℚ), (0 : ℚ))) (t : ℚ) :
    losRatio v (tsmul t v) = t := by
  obtain ⟨v1, v2, v3⟩ := v
  simp only [losRatio, tsmul]
  by_cases h1 : v1 ≠ 0
  · rw [if_pos h1]
    field_simp
  · rw [if_neg h1]
    push_neg at h1
    by_cases h2 : v2 ≠ 0
    · rw [if_pos h2]
      field_simp
    · rw [if_neg h2]
      push_neg at h2
      have h3 : v3 ≠ 0 := by
        intro h3
        exact hv (by simp [h1, h2, h3])
      field_simp

theorem occludes_safePlacement (c g : Triple) :
    occludes c g (safePlacement c g) = false := by
  by_cases hv : tsub g c = ((0 : ℚ), (0 : ℚ), (0 : ℚ))
  · simp [occludes, hv]
  · have hw : tsub (safePlacement c g) c = tsmul 2 (tsub g c) := by
      obtain ⟨c1, c2, c3⟩ := c
      obtain ⟨g1, g2, g3⟩ := g
      simp only [tsub, tadd, tsmul, safePlacement, Prod.mk.injEq]
      refine ⟨by ring, by ring, by ring⟩
    simp only [occludes, hw, if_neg hv, losRatio_smul _ hv 2]
    rw [if_neg]
    rintro ⟨-, -, hlt⟩
    norm_num at hlt

/-- A state whose only agent has a position iterating to two components. -/
def shortPositionState : MotorSystemState :=
  [("agent_id_0", { sensors := [], position := .arr [1, 2], rotation := .quat 0 0 0 1 })]

/-- A one-agent state with `motor_only_step = true`. -/
def flagTrueState : MotorSystemState :=
  [("agent_id_0",
    { sensors := [], position := .vec3 1 2 3, rotation := .quat 1 0 0 0,
      motor_only_step := true })]

/-- The same state as `flagTrueState` but with `motor_only_step = false`. -/
def flagFalseState : MotorSystemState :=
  [("agent_id_0",
    { sensors := [], position := .vec3 1 2 3, rotation := .quat 1 0 0 0,
      motor_only_step := false })]

/-! ## Claims -/

/-- C1: for every motor-system state in which each agent's and sensor's
`position` is a 3-component vector and each `rotation` is a quaternion with
scalar part `real` and 3-vector imaginary part `imag`,
`convert_motor_state` succeeds and returns, for each agent and each of its
sensors, a record whose `rotation` is the 4-element sequence
`[real, imag0, imag1, imag2]` (scalar part first, WXYZ order) and whose
`position` is the 3-element sequence of the vector's components — the mapping
`expectedOutput`. -/
theorem convert_motor_state_wxyz_order (s : MotorSystemState) (h : wfState s = true) :
    convert_motor_state s = .ok (expectedOutput s) := by
  induction s with
  | nil => rfl
  | cons hd tl ih =>
    obtain ⟨aid, a⟩ := hd
    simp only [wfState, List.all_cons, Bool.and_eq_true] at h
    simp only [convert_motor_state]
    rw [convertAgent_wf a h.1, ih h.2]
    rfl

/-- C1 witness: the spec's worked example — agent at `(1, 2, 3)` with
quaternion `real = 0`, `imag = (0, 0, 1)` and one sensor at `(0, 0.1, 0)` with
identity rotation — yields rotation `[0, 0, 0, 1]` for the agent and
`[1, 0, 0, 0]` for the sensor. -/
theorem convert_motor_state_wxyz_order_witness :
    wfState exampleState = true ∧
    convert_motor_state exampleState = .ok exampleOutput :=
  ⟨rfl, (convert_motor_state_wxyz_order exampleState rfl).trans rfl⟩

/-- C2: every output `convert_motor_state` produces consists only of mappings
of primitive numeric sequences (records of `List ℚ` over string keys — no
vector/quaternion objects), and serializing it to JSON and parsing the JSON
back yields an equal structure. -/
theorem convert_output_json_roundtrip (s : MotorSystemState)
    (out : List (AgentID × AgentEntry)) (_h : convert_motor_state s = .ok out) :
    outputOfJson (jsonOfOutput out) = some out :=
  output_roundtrip out

/-- C2 witness: the worked example's output round-trips through JSON. -/
theorem convert_output_json_roundtrip_witness :
    convert_motor_state exampleState = .ok exampleOutput ∧
    outputOfJson (jsonOfOutput exampleOutput) = some exampleOutput :=
  ⟨rfl, convert_output_json_roundtrip exampleState exampleOutput rfl⟩

/-- C3: `convert_motor_state` has no side effects: running the source's loop
with the `self` mapping (every `AgentState` with its `sensors`, `position`,
`rotation` and `motor_only_step`) threaded through every iteration returns
`self` exactly as it was before the call. -/
theorem convert_motor_state_no_mutation (s : MotorSystemState) :
    (convertRun s).1 = s :=
  convertLoop_self s (s.map Prod.fst) []

/-- C4: `convert_motor_state` is deterministic — on equal inputs it returns
equal outputs. -/
theorem convert_motor_state_deterministic (s1 s2 : MotorSystemState) (h : s1 = s2) :
    convert_motor_state s1 = convert_motor_state s2 := by
  rw [h]

/-- C4 witness: two calls on the worked example agree. -/
theorem convert_motor_state_deterministic_witness :
    convert_motor_state exampleState = convert_motor_state exampleState :=
  convert_motor_state_deterministic exampleState exampleState rfl

/-- C5 counterexample: a position that iterates to only 2 numeric components
(`[1.0, 2.0]`) is accepted without any error — the claim says such an input
must fail with a type error, but `np.array(list(position))` never checks the
component count. -/
theorem convert_accepts_short_position :
    convert_motor_state shortPositionState =
      .ok [("agent_id_0", ⟨[1, 2], [0, 0, 0, 1], []⟩)] := rfl

/-- C5 (amended): `convert_motor_state` raises a type/attribute error exactly
when some agent's or sensor's position does not support iteration at all, or
some rotation lacks the scalar-plus-3-vector-imaginary decomposition; the
number of components a position iterates to is not checked, so positions with
other than 3 components are silently accepted. -/
theorem convert_ok_iff_loose (s : MotorSystemState) :
    (convert_motor_state s).isOk = looseState s := by
  induction s with
  | nil => rfl
  | cons hd tl ih =>
    obtain ⟨aid, a⟩ := hd
    simp only [looseState, List.all_cons] at ih ⊢
    simp only [convert_motor_state]
    cases hca : convertAgent a with
    | error e =>
      have h1 : looseAgent a = false := by rw [← convertAgent_isOk, hca]; rfl
      simp [h1, Except.isOk, Except.toBool]
    | ok entry =>
      have h1 : looseAgent a = true := by rw [← convertAgent_isOk, hca]; rfl
      cases hct : convert_motor_state tl with
      | error e =>
        rw [hct] at ih
        simp [h1, ← ih, Except.isOk, Except.toBool]
      | ok tail =>
        rw [hct] at ih
        simp [h1, ← ih, Except.isOk, Except.toBool]

/-- C6: the output is a new mapping whose key sequence equals the input's
agent-key sequence; each agent's record has exactly the fields `position`,
`rotation` and `sensors` (the `AgentEntry` type); and each `sensors` mapping
has the same key sequence as the input agent's sensors, every entry a record
with exactly `position` and `rotation` (the `SensorEntry` type) derived by the
same per-sensor conversion. -/
theorem convert_preserves_key_structure (s : MotorSystemState)
    (out : List (AgentID × AgentEntry)) (h : convert_motor_state s = .ok out) :
    out.map Prod.fst = s.map Prod.fst ∧
    List.Forall₂ (fun (a : AgentID × AgentState) (b : AgentID × AgentEntry) =>
      b.1 = a.1 ∧ b.2.sensors.map Prod.fst = a.2.sensors.map Prod.fst ∧
      List.Forall₂ (fun ss se => se.1 = ss.1 ∧ convertSensor ss.2 = .ok se.2)
        a.2.sensors b.2.sensors) s out := by
  induction s generalizing out with
  | nil =>
    simp only [convert_motor_state] at h
    injection h with h
    subst h
    exact ⟨rfl, List.Forall₂.nil⟩
  | cons hd tl ih =>
    obtain ⟨aid, a⟩ := hd
    simp only [convert_motor_state] at h
    cases hca : convertAgent a <;> rw [hca] at h
    · exact absurd h (by simp)
    · cases hct : convert_motor_state tl <;> rw [hct] at h
      · exact absurd h (by simp)
      · injection h with h
        subst h
        obtain ⟨ihm, ihf⟩ := ih _ hct
        have hsens := convertSensors_shape a.sensors _ (convertAgent_sensors a _ hca)
        exact ⟨by simp only [List.map_cons, ihm],
          List.Forall₂.cons ⟨rfl, sensors_key_map _ _ hsens, hsens⟩ ihf⟩

/-- C6 witness: the worked example's output has the same agent and sensor key
sequences as its input. -/
theorem convert_preserves_key_structure_witness :
    convert_motor_state exampleState = .ok exampleOutput ∧
    exampleOutput.map Prod.fst = exampleState.map Prod.fst ∧
    List.Forall₂ (fun (a : AgentID × AgentState) (b : AgentID × AgentEntry) =>
      b.1 = a.1 ∧ b.2.sensors.map Prod.fst = a.2.sensors.map Prod.fst ∧
      List.Forall₂ (fun ss se => se.1 = ss.1 ∧ convertSensor ss.2 = .ok se.2)
        a.2.sensors b.2.sensors) exampleState exampleOutput :=
  ⟨rfl, convert_preserves_key_structure exampleState exampleOutput rfl⟩

/-- C9: constructing an `AgentState` without supplying `motor_only_step`
yields `motor_only_step = false`. -/
theorem agentState_motor_only_step_default (sensors : List (SensorID × SensorState))
    (p r : PyObj) :
    ({ sensors := sensors, position := p, rotation := r } : AgentState).motor_only_step =
      false := rfl

/-- C10: the output of `convert_motor_state` is independent of
`motor_only_step` — two states equal except for that flag on their agent
states canonicalize identically. -/
theorem convert_independent_of_motor_only_step (s1 s2 : MotorSystemState)
    (h : List.Forall₂ (fun (x y : AgentID × AgentState) =>
      x.1 = y.1 ∧ x.2.sensors = y.2.sensors ∧ x.2.position = y.2.position ∧
      x.2.rotation = y.2.rotation) s1 s2) :
    convert_motor_state s1 = convert_motor_state s2 := by
  induction h with
  | nil => rfl
  | @cons x y l1 l2 hxy htl ih =>
    obtain ⟨k1, v1⟩ := x
    obtain ⟨k2, v2⟩ := y
    obtain ⟨hk, h1, h2, h3⟩ := hxy
    cases hk
    simp only [convert_motor_state]
    rw [convertAgent_congr v1 v2 h1 h2 h3, ih]

/-- C10 witness: flipping `motor_only_step` on a concrete state leaves the
canonicalized output unchanged. -/
theorem convert_independent_of_motor_only_step_witness :
    convert_motor_state flagTrueState = convert_motor_state flagFalseState :=
  convert_independent_of_motor_only_step flagTrueState flagFalseState
    (List.Forall₂.cons ⟨rfl, rfl, rfl, rfl⟩ List.Forall₂.nil)

/-- C7 (spec-modelled): after any sequence of operations on a fresh simulator,
as long as the backend is not closed, `reset` returns it to the initial
configuration with the initial observations — the same result as `reset` on a
freshly constructed simulator — while `apply_action` (and `reset`) on a closed
simulator fail rather than returning stale observations. -/
theorem reset_restores_initial_config (ops : List SimOp) (a : ℕ)
    (h : (runOps ops freshSim).phase ≠ SimPhase.closed) :
    resetSim (runOps ops freshSim) = .ok (freshSim, initialObs) ∧
    resetSim (runOps ops freshSim) = resetSim freshSim ∧
    applyActionSim a (closeSim (runOps ops freshSim)) = .error .simClosed ∧
    resetSim (closeSim (runOps ops freshSim)) = .error .simClosed := by
  have h1 : resetSim (runOps ops freshSim) = .ok (freshSim, initialObs) := by
    unfold resetSim
    cases hp : (runOps ops freshSim).phase
    · rfl
    · rfl
    · exact absurd hp h
  exact ⟨h1, h1.trans rfl, rfl, rfl⟩

/-- C7 witness: after applying an action, resetting and applying another
action, the simulator is not closed and `reset` restores the initial
configuration, while the closed simulator rejects operations. -/
theorem reset_restores_initial_config_witness :
    (runOps [SimOp.applyAct 0, SimOp.resetOp, SimOp.applyAct 1] freshSim).phase ≠
      SimPhase.closed ∧
    (resetSim (runOps [SimOp.applyAct 0, SimOp.resetOp, SimOp.applyAct 1] freshSim) =
      .ok (freshSim, initialObs) ∧
    resetSim (runOps [SimOp.applyAct 0, SimOp.resetOp, SimOp.applyAct 1] freshSim) =
      resetSim freshSim ∧
    applyActionSim 5 (closeSim (runOps [SimOp.applyAct 0, SimOp.resetOp,
      SimOp.applyAct 1] freshSim)) = .error .simClosed ∧
    resetSim (closeSim (runOps [SimOp.applyAct 0, SimOp.resetOp,
      SimOp.applyAct 1] freshSim)) = .error .simClosed) :=
  ⟨by decide, reset_restores_initial_config [SimOp.applyAct 0, SimOp.resetOp,
    SimOp.applyAct 1] 5 (by decide)⟩

/-- C8 (spec-modelled): `add_object` with `primary_target_object` set places
the new object at a position that does not occlude the camera's initial view
of the target, and it fails with an error whenever the requested name is not
in the preloaded object registry. -/
theorem add_object_occlusion_and_registry (sc : Scene) (name bad : String)
    (pos : Triple) (sem : Option ℕ) (tid : ℕ) (g : Triple)
    (hreg : name ∈ sc.registry) (hbad : bad ∉ sc.registry)
    (htid : objPos tid sc.objects = some g) :
    (∃ placed,
      addObjectSim sc name pos sem (some tid) =
        .ok ({ sc with objects := sc.objects ++ [(sc.objects.length, placed)] },
          sc.objects.length, sem) ∧
      occludes sc.camera g placed = false) ∧
    addObjectSim sc bad pos sem (some tid) = .error .unknownObjectName := by
  constructor
  · simp only [addObjectSim, if_pos hreg, htid]
    by_cases hocc : occludes sc.camera g pos = true
    · exact ⟨safePlacement sc.camera g, by rw [if_pos hocc],
        occludes_safePlacement sc.camera g⟩
    · have hocc2 : occludes sc.camera g pos = false := by
        cases hoc : occludes sc.camera g pos
        · rfl
        · exact absurd hoc hocc
      exact ⟨pos, by rw [if_neg hocc], hocc2⟩
  · simp only [addObjectSim, if_neg hbad]

/-- C8 witness: in a scene with camera at the origin, a registered object
`"mug"` requested at the point halfway to the target at `(2, 0, 0)` is placed
without occluding the target, and an unregistered name `"cup"` is rejected. -/
theorem add_object_occlusion_and_registry_witness :
    "mug" ∈ (⟨["mug"], [(0, ((2 : ℚ), 0, 0))], (0, 0, 0)⟩ : Scene).registry ∧
    "cup" ∉ (⟨["mug"], [(0, ((2 : ℚ), 0, 0))], (0, 0, 0)⟩ : Scene).registry ∧
    objPos 0 (⟨["mug"], [(0, ((2 : ℚ), 0, 0))], (0, 0, 0)⟩ : Scene).objects =
      some ((2 : ℚ), 0, 0) ∧
    ((∃ placed,
      addObjectSim ⟨["mug"], [(0, ((2 : ℚ), 0, 0))], (0, 0, 0)⟩ "mug"
          ((1 : ℚ), 0, 0) none (some 0) =
        .ok (⟨["mug"], [(0, ((2 : ℚ), 0, 0)), (1, placed)], (0, 0, 0)⟩, 1, none) ∧
      occludes ((0 : ℚ), 0, 0) ((2 : ℚ), 0, 0) placed = false) ∧
    addObjectSim ⟨["mug"], [(0, ((2 : ℚ), 0, 0))], (0, 0, 0)⟩ "cup"
        ((1 : ℚ), 0, 0) none (some 0) = .error .unknownObjectName) :=
  ⟨by decide, by decide, rfl,
    add_object_occlusion_and_registry ⟨["mug"], [(0, ((2 : ℚ), 0, 0))], (0, 0, 0)⟩
      "mug" "cup" ((1 : ℚ), 0, 0) none 0 ((2 : ℚ), 0, 0) (by decide) (by decide) rfl⟩

end Monty
